import Mathlib

/-!
Verification of the MarkItDown-api conversion core (`src/main.py`).

The repository is a FastAPI service whose single non-trivial component is
`perform_conversion(contents, filename, mimetype)`: a waterfall that tries
MarkItDown, then pandoc, then antiword (legacy Word only), then OCR
(images only), with precondition checks on the content size and a
temporary file materialised for the path-based engines.

Shallow embedding conventions:
* bytes are `List Nat`;
* the external tools (the MarkItDown library, the pandoc and antiword
  subprocesses, pytesseract OCR, the `mimetypes` extension table) are
  black boxes supplied by an environment structure; an engine attempt
  either returns a value or raises (`Attempt.fault`), matching Python
  exceptions crossing into the orchestrator's `try`;
* Python `str.strip()` is `pyStrip`, Python `len` on a string is
  `String.length`, Python string truthiness is `≠ ""`;
* ghost fields (`invoked`, `tmpCreated`, `tmpRemoved`) record which
  engines were attempted and the temp-file lifecycle; they do not affect
  the computed result.
-/

/-- Raw request bytes. -/
abbrev Bytes := List Nat

/-- Python whitespace characters stripped by `str.strip()` (ASCII part). -/
def isPySpace (c : Char) : Bool :=
  c = ' ' || c = '\t' || c = '\n' || c = '\r' || c = '\x0b' || c = '\x0c'

/-- Drop whitespace from the end of a character list. -/
def dropEndSpace (l : List Char) : List Char :=
  (l.reverse.dropWhile isPySpace).reverse

/-- Strip whitespace from both ends of a character list. -/
def stripList (l : List Char) : List Char :=
  dropEndSpace (l.dropWhile isPySpace)

/-- Embedding of Python `str.strip()`. -/
def pyStrip (s : String) : String :=
  String.mk (stripList s.toList)

/-- Embedding of Python `str.lower()` (ASCII case folding). -/
def pyLower (s : String) : String :=
  String.mk (s.toList.map Char.toLower)

/-- Embedding of Python `str.startswith(pre)`. -/
def pyStartsWith (s pre : String) : Bool :=
  pre.toList.isPrefixOf s.toList

/-- Embedding of `os.path.splitext(p)[1]` restricted to the basename:
the extension starts at the last dot, provided some earlier character of
the basename is not a dot (so dotfiles like `.bashrc` have no extension). -/
def extOfBase (cs : List Char) : String :=
  let after := cs.reverse.takeWhile (fun c => c ≠ '.')
  if after.length = cs.length then ""
  else
    let d := cs.length - after.length - 1
    if (cs.take d).any (fun c => c ≠ '.') then String.mk (cs.drop d) else ""

/-- Embedding of `os.path.splitext(filename)[1]` (POSIX separator `/`). -/
def splitext_ext (s : String) : String :=
  extOfBase ((s.toList.reverse.takeWhile (fun c => c ≠ '/')).reverse)

/-- `src/main.py` `get_extension`: the filename's extension, else a guess
from the declared media type (`g` models `mimetypes.guess_extension`),
else the empty string. -/
def get_extension (g : String → Option String) (filename mimetype : String) : String :=
  let ext := splitext_ext filename
  if ext = "" ∧ mimetype ≠ "" then (g mimetype).getD "" else ext

/-- Result of one external-tool call as seen by the orchestrator: a
returned value, or an exception propagating out of the attempt. -/
inductive Attempt where
  | ok (text : String)
  | fault (msg : String)
deriving DecidableEq, Repr

/-- Result of a `subprocess.run` call: exit code and captured stdout. -/
structure SubprocResult where
  returncode : Int
  stdout : String
deriving DecidableEq, Repr

/-- Behaviour of the external black-box tools.  Path-based tools see the
temp file, whose observable content is the request bytes plus the chosen
suffix, so they are functions of `(bytes, suffix)`.  `Except.error`
models the tool call raising an exception. -/
structure Tools where
  guessExt : String → Option String
  mdRaw : Bytes → String → Attempt
  pandocFromDoc : Bytes → String → Except String SubprocResult
  pandocAuto : Bytes → String → Except String SubprocResult
  antiwordRun : Bytes → String → Except String SubprocResult
  ocrRun : Bytes → Except String String

/-- `src/main.py` `run_pandoc_conversion`: try `pandoc --from doc`, accept
its stripped stdout on exit code 0; otherwise retry in auto-detect mode;
any exception yields `""`. -/
def run_pandoc_conversion (T : Tools) (c : Bytes) (sfx : String) : String :=
  match T.pandocFromDoc c sfx with
  | .error _ => ""
  | .ok r =>
    if r.returncode = 0 then pyStrip r.stdout
    else
      match T.pandocAuto c sfx with
      | .error _ => ""
      | .ok r2 => if r2.returncode = 0 then pyStrip r2.stdout else ""

/-- `src/main.py` `run_antiword_conversion`: run antiword, accept stripped
stdout on exit code 0; any exception yields `""`. -/
def run_antiword_conversion (T : Tools) (c : Bytes) (sfx : String) : String :=
  match T.antiwordRun c sfx with
  | .error _ => ""
  | .ok r => if r.returncode = 0 then pyStrip r.stdout else ""

/-- `src/main.py` `run_ocr`: open the bytes as an image and OCR them,
returning the stripped text; any exception yields `""`. -/
def run_ocr (T : Tools) (c : Bytes) : String :=
  match T.ocrRun c with
  | .error _ => ""
  | .ok t => pyStrip t

/-- Engine behaviour at the orchestrator boundary (what the waterfall in
`perform_conversion` observes of each attempt). -/
structure Env where
  guessExt : String → Option String
  mdConvert : Bytes → String → Attempt
  pandoc : Bytes → String → Attempt
  antiword : Bytes → String → Attempt
  ocr : Bytes → Attempt

/-- The orchestrator-level environment induced by concrete tools: the
adapter functions catch their tools' exceptions internally, so their
attempts never fault. -/
def enginesOf (T : Tools) : Env where
  guessExt := T.guessExt
  mdConvert := T.mdRaw
  pandoc := fun c s => .ok (run_pandoc_conversion T c s)
  antiword := fun c s => .ok (run_antiword_conversion T c s)
  ocr := fun c => .ok (run_ocr T c)

/-- Waterfall state: the `markdown` and `method` locals of
`perform_conversion`, plus the ghost list of engines attempted so far. -/
structure WState where
  markdown : String
  method : String
  invoked : List String
deriving DecidableEq, Repr

/-- A waterfall computation: either a final state, or an exception that
escaped a step, carrying the state at the moment it was raised. -/
abbrev WM := Except (WState × String) WState

/-- The image-extension set of `src/main.py` line 110. -/
def image_exts : List String := [".png", ".jpg", ".jpeg", ".tiff", ".bmp", ".gif"]

/-- Step 1 (lines 121–129): unless legacy Word, try MarkItDown; its
exceptions are caught by the inner `try`, so this step never faults. -/
def step1 (E : Env) (c : Bytes) (sfx : String) (isLegacyWord : Bool) : WState :=
  if isLegacyWord then ⟨"", "unknown", []⟩
  else
    match E.mdConvert c sfx with
    | .fault _ => ⟨"", "unknown", ["markitdown"]⟩
    | .ok t =>
      let m := pyStrip t
      ⟨m, if m = "" then "unknown" else "markitdown", ["markitdown"]⟩

/-- Step 2 (lines 131–137): if nothing accepted yet, try pandoc. -/
def step2 (E : Env) (c : Bytes) (sfx : String) (s : WState) : WM :=
  if s.markdown = "" then
    match E.pandoc c sfx with
    | .fault e => .error ({ s with invoked := s.invoked ++ ["pandoc"] }, e)
    | .ok t => .ok ⟨t, if t = "" then s.method else "pandoc", s.invoked ++ ["pandoc"]⟩
  else .ok s

/-- Step 3 (lines 139–144): if nothing accepted yet and the input is
legacy Word, try antiword directly. -/
def step3 (E : Env) (c : Bytes) (sfx : String) (isLegacyWord : Bool) (s : WState) : WM :=
  if s.markdown = "" ∧ isLegacyWord then
    match E.antiword c sfx with
    | .fault e => .error ({ s with invoked := s.invoked ++ ["antiword"] }, e)
    | .ok t => .ok ⟨t, if t = "" then s.method else "antiword", s.invoked ++ ["antiword"]⟩
  else .ok s

/-- Step 4 (lines 146–152): for images with no or short (< 10 chars)
text so far, run OCR on the raw bytes; non-empty OCR text overwrites. -/
def step4 (E : Env) (c : Bytes) (isImage : Bool) (s : WState) : WM :=
  if isImage ∧ (s.markdown = "" ∨ s.markdown.length < 10) then
    match E.ocr c with
    | .fault e => .error ({ s with invoked := s.invoked ++ ["ocr"] }, e)
    | .ok t =>
      if t = "" then .ok { s with invoked := s.invoked ++ ["ocr"] }
      else .ok ⟨t, "ocr", s.invoked ++ ["ocr"]⟩
  else .ok s

/-- Steps 1–3 of the waterfall chained with Python exception flow. -/
def runSteps123 (E : Env) (c : Bytes) (sfx : String) (isLegacyWord : Bool) : WM :=
  match step2 E c sfx (step1 E c sfx isLegacyWord) with
  | .error f => .error f
  | .ok s => step3 E c sfx isLegacyWord s

/-- The whole waterfall (the body of the outer `try` of lines 120–152). -/
def runWaterfall (E : Env) (c : Bytes) (sfx : String) (isImage isLegacyWord : Bool) : WM :=
  match runSteps123 E c sfx isLegacyWord with
  | .error f => .error f
  | .ok s => step4 E c isImage s

/-- The classified errors `perform_conversion` can raise
(`HTTPException`s 400, 413, 500, 422 of `src/main.py`). -/
inductive ConvError where
  | emptyInput
  | tooLarge
  | conversionFaulted (msg : String)
  | allEnginesFailed
deriving DecidableEq, Repr

/-- The success payload returned by `perform_conversion` (lines 175–181). -/
structure ConvResult where
  filename : String
  content_type : String
  size_bytes : Nat
  markdown : String
  method : String
deriving DecidableEq, Repr

deriving instance DecidableEq for Except

/-- Observable outcome of one request: the HTTP-level result plus the
ghost engine-invocation and temp-file traces. -/
structure ConvOutcome where
  result : Except ConvError ConvResult
  invoked : List String
  tmpCreated : List String
  tmpRemoved : Nat
deriving DecidableEq, Repr

/-- Line 107: the resolved, lower-cased extension. -/
def resolvedExt (g : String → Option String) (filename mimetype : String) : String :=
  pyLower (get_extension g filename mimetype)

/-- Line 108: the temp-file suffix derived from the extension. -/
def suffixFor (ext : String) : String :=
  if pyStartsWith ext "." then ext else if ext ≠ "" then "." ++ ext else ""

/-- Line 110: image classification. -/
def isImageOf (ext mimetype : String) : Bool :=
  pyStartsWith mimetype "image/" || image_exts.contains ext

/-- Line 111: legacy Word classification. -/
def isLegacyWordOf (ext mimetype : String) : Bool :=
  ext == ".doc" || mimetype == "application/msword"

/-- Image classification of a request (after extension resolution). -/
def isImageInput (g : String → Option String) (filename mimetype : String) : Bool :=
  isImageOf (resolvedExt g filename mimetype) mimetype

/-- Legacy-Word classification of a request (after extension resolution). -/
def isLegacyWordInput (g : String → Option String) (filename mimetype : String) : Bool :=
  isLegacyWordOf (resolvedExt g filename mimetype) mimetype

/-- `src/main.py` `perform_conversion` (lines 96–181): precondition
checks, classification, temp-file creation, the engine waterfall inside
`try/except/finally`, and the final assembly or `AllEnginesFailed`.
A fault escaping the waterfall is surfaced as `conversionFaulted` only
for non-image inputs (lines 154–160); the `finally` removes the temp
file on every path (lines 161–166). -/
def perform_conversion (E : Env) (maxFileSize : Nat) (contents : Bytes)
    (filename mimetype : String) : ConvOutcome :=
  if contents.length = 0 then
    { result := .error .emptyInput, invoked := [], tmpCreated := [], tmpRemoved := 0 }
  else if contents.length > maxFileSize then
    { result := .error .tooLarge, invoked := [], tmpCreated := [], tmpRemoved := 0 }
  else
    let ext := resolvedExt E.guessExt filename mimetype
    let suffix := suffixFor ext
    let isImage := isImageOf ext mimetype
    let isLegacyWord := isLegacyWordOf ext mimetype
    match runWaterfall E contents suffix isImage isLegacyWord with
    | .ok s =>
      if s.markdown = "" then
        { result := .error .allEnginesFailed, invoked := s.invoked,
          tmpCreated := [suffix], tmpRemoved := 1 }
      else
        { result := .ok { filename := filename, content_type := mimetype,
                          size_bytes := contents.length,
                          markdown := s.markdown, method := s.method },
          invoked := s.invoked, tmpCreated := [suffix], tmpRemoved := 1 }
    | .error (s, e) =>
      if isImage then
        if s.markdown = "" then
          { result := .error .allEnginesFailed, invoked := s.invoked,
            tmpCreated := [suffix], tmpRemoved := 1 }
        else
          { result := .ok { filename := filename, content_type := mimetype,
                            size_bytes := contents.length,
                            markdown := s.markdown, method := s.method },
            invoked := s.invoked, tmpCreated := [suffix], tmpRemoved := 1 }
      else
        { result := .error (.conversionFaulted e), invoked := s.invoked,
          tmpCreated := [suffix], tmpRemoved := 1 }

/-- The four method tags of `src/main.py` (lines 127, 135, 143, 152). -/
def engineTags : List String := ["markitdown", "pandoc", "antiword", "ocr"]

/-- Invariant of waterfall states over real adapters: accepted text is
already stripped and the method names the engine that produced it. -/
def GoodState (s : WState) : Prop :=
  s.markdown ≠ "" → pyStrip s.markdown = s.markdown ∧ s.method ∈ engineTags


/-! ## Concrete environments used by witnesses and counterexamples -/

/-- An environment with constant engine behaviour. -/
def mkEnv (mdr p a o : Attempt) : Env where
  guessExt := fun _ => none
  mdConvert := fun _ _ => mdr
  pandoc := fun _ _ => p
  antiword := fun _ _ => a
  ocr := fun _ => o

/-- Concrete tools with constant behaviour. -/
def mkTools (mdr : Attempt) (pd pa aw : Except String SubprocResult)
    (oc : Except String String) : Tools where
  guessExt := fun _ => none
  mdRaw := fun _ _ => mdr
  pandocFromDoc := fun _ _ => pd
  pandocAuto := fun _ _ => pa
  antiwordRun := fun _ _ => aw
  ocrRun := fun _ => oc


/-! ## General lemmas about the orchestrator -/

/-- Unfolding of `perform_conversion` once the size preconditions hold. -/
lemma perform_conversion_eq (E : Env) (maxFileSize : Nat) (c : Bytes) (f m : String)
    (h0 : c.length ≠ 0) (h1 : ¬ c.length > maxFileSize) :
    perform_conversion E maxFileSize c f m =
      (match runWaterfall E c (suffixFor (resolvedExt E.guessExt f m))
          (isImageInput E.guessExt f m) (isLegacyWordInput E.guessExt f m) with
       | .ok s =>
         if s.markdown = "" then
           { result := .error .allEnginesFailed, invoked := s.invoked,
             tmpCreated := [suffixFor (resolvedExt E.guessExt f m)], tmpRemoved := 1 }
         else
           { result := .ok { filename := f, content_type := m, size_bytes := c.length,
                             markdown := s.markdown, method := s.method },
             invoked := s.invoked,
             tmpCreated := [suffixFor (resolvedExt E.guessExt f m)], tmpRemoved := 1 }
       | .error (s, e) =>
         if isImageInput E.guessExt f m then
           if s.markdown = "" then
             { result := .error .allEnginesFailed, invoked := s.invoked,
               tmpCreated := [suffixFor (resolvedExt E.guessExt f m)], tmpRemoved := 1 }
           else
             { result := .ok { filename := f, content_type := m, size_bytes := c.length,
                               markdown := s.markdown, method := s.method },
               invoked := s.invoked,
               tmpCreated := [suffixFor (resolvedExt E.guessExt f m)], tmpRemoved := 1 }
         else
           { result := .error (.conversionFaulted e), invoked := s.invoked,
             tmpCreated := [suffixFor (resolvedExt E.guessExt f m)], tmpRemoved := 1 }) := by
  unfold perform_conversion
  rw [if_neg h0, if_neg h1]
  rfl

/-- Step 1 attempts at most the MarkItDown engine. -/
lemma step1_invoked (E : Env) (c : Bytes) (sfx : String) (lw : Bool) :
    (step1 E c sfx lw).invoked = [] ∨ (step1 E c sfx lw).invoked = ["markitdown"] := by
  unfold step1
  split
  · exact .inl rfl
  · cases E.mdConvert c sfx <;> exact .inr rfl

/-- Step 2 adds at most the pandoc engine to the attempts. -/
lemma step2_ok_invoked (E : Env) (c : Bytes) (sfx : String) (s s' : WState)
    (h : step2 E c sfx s = .ok s') :
    s'.invoked = s.invoked ∨ s'.invoked = s.invoked ++ ["pandoc"] := by
  unfold step2 at h
  split at h
  · rcases hE : E.pandoc c sfx with t | e <;> rw [hE] at h
    · injection h with h'
      subst h'
      exact .inr rfl
    · cases h
  · injection h with h'
    subst h'
    exact .inl rfl

/-- Step 3 adds at most the antiword engine to the attempts. -/
lemma step3_ok_invoked (E : Env) (c : Bytes) (sfx : String) (lw : Bool) (s s' : WState)
    (h : step3 E c sfx lw s = .ok s') :
    s'.invoked = s.invoked ∨ s'.invoked = s.invoked ++ ["antiword"] := by
  unfold step3 at h
  split at h
  · rcases hE : E.antiword c sfx with t | e <;> rw [hE] at h
    · injection h with h'
      subst h'
      exact .inr rfl
    · cases h
  · injection h with h'
    subst h'
    exact .inl rfl

/-- Steps 1–3 never attempt the OCR engine. -/
lemma runSteps123_no_ocr (E : Env) (c : Bytes) (sfx : String) (lw : Bool) (s : WState)
    (h : runSteps123 E c sfx lw = .ok s) : "ocr" ∉ s.invoked := by
  unfold runSteps123 at h
  rcases h2 : step2 E c sfx (step1 E c sfx lw) with f | s2 <;> rw [h2] at h
  · cases h
  · have h1 := step1_invoked E c sfx lw
    have i2 := step2_ok_invoked E c sfx _ _ h2
    have i3 := step3_ok_invoked E c sfx lw _ _ h
    rcases h1 with h1 | h1 <;> rcases i2 with i2 | i2 <;> rcases i3 with i3 | i3 <;>
      rw [i3, i2, h1] <;> decide

/-! ## Stripping lemmas -/

/-- `List.dropWhile` is idempotent. -/
lemma dropWhile_dropWhile {α : Type} (p : α → Bool) (l : List α) :
    (l.dropWhile p).dropWhile p = l.dropWhile p := by
  induction l with
  | nil => rfl
  | cons a l ih =>
    rw [List.dropWhile_cons]
    by_cases h : p a = true
    · rw [if_pos h]
      exact ih
    · rw [if_neg h, List.dropWhile_cons, if_neg h]

/-- The head of `dropWhile p` does not satisfy `p`. -/
lemma head_dropWhile_false {α : Type} (p : α → Bool) (l : List α) (a : α)
    (h : (l.dropWhile p).head? = some a) : p a = false := by
  induction l with
  | nil => cases h
  | cons b l ih =>
    cases hb : p b
    · rw [List.dropWhile_cons, hb, if_neg (by simp)] at h
      injection h with h'
      subst h'
      exact hb
    · rw [List.dropWhile_cons, hb, if_pos rfl] at h
      exact ih h

/-- A list whose head does not satisfy `p` is untouched by `dropWhile p`. -/
lemma dropWhile_eq_self_of_head {α : Type} (p : α → Bool) (l : List α)
    (h : ∀ a, l.head? = some a → p a = false) : l.dropWhile p = l := by
  cases l with
  | nil => rfl
  | cons a l =>
    rw [List.dropWhile_cons, h a rfl]
    simp

/-- `dropEndSpace` is idempotent. -/
lemma dropEndSpace_idem (l : List Char) :
    dropEndSpace (dropEndSpace l) = dropEndSpace l := by
  unfold dropEndSpace
  rw [List.reverse_reverse, dropWhile_dropWhile]

/-- `dropEndSpace l` is a prefix of `l`. -/
lemma dropEndSpace_prefix (l : List Char) :
    ∃ t, l = dropEndSpace l ++ t := by
  refine ⟨(l.reverse.takeWhile isPySpace).reverse, ?_⟩
  unfold dropEndSpace
  rw [← List.reverse_append, List.takeWhile_append_dropWhile, List.reverse_reverse]

/-- The head survives `dropEndSpace`. -/
lemma head?_dropEndSpace (l : List Char) (a : Char)
    (h : (dropEndSpace l).head? = some a) : l.head? = some a := by
  obtain ⟨t, ht⟩ := dropEndSpace_prefix l
  rw [ht]
  cases hd : dropEndSpace l with
  | nil => rw [hd] at h; cases h
  | cons b u =>
    rw [hd, List.head?_cons] at h
    injection h with h'
    subst h'
    rfl

/-- A stripped list has no leading whitespace. -/
lemma stripList_noLead (l : List Char) (a : Char)
    (h : (stripList l).head? = some a) : isPySpace a = false := by
  unfold stripList at h
  exact head_dropWhile_false isPySpace l a (head?_dropEndSpace _ a h)

/-- `stripList` is idempotent. -/
lemma stripList_idem (l : List Char) : stripList (stripList l) = stripList l := by
  have h1 : (stripList l).dropWhile isPySpace = stripList l :=
    dropWhile_eq_self_of_head _ _ (fun a ha => stripList_noLead l a ha)
  show dropEndSpace ((stripList l).dropWhile isPySpace) = stripList l
  rw [h1]
  show dropEndSpace (dropEndSpace (l.dropWhile isPySpace)) = stripList l
  rw [dropEndSpace_idem]
  rfl

/-- `pyStrip` is idempotent (Python `s.strip().strip() == s.strip()`). -/
lemma pyStrip_idem (s : String) : pyStrip (pyStrip s) = pyStrip s := by
  show String.mk (stripList (stripList s.toList)) = String.mk (stripList s.toList)
  rw [stripList_idem]

/-- Stripping the empty string. -/
lemma pyStrip_empty : pyStrip "" = "" := rfl

/-- The pandoc adapter only returns stripped strings. -/
lemma pyStrip_run_pandoc (T : Tools) (c : Bytes) (sfx : String) :
    pyStrip (run_pandoc_conversion T c sfx) = run_pandoc_conversion T c sfx := by
  unfold run_pandoc_conversion
  split
  · exact pyStrip_empty
  · split
    · exact pyStrip_idem _
    · split
      · exact pyStrip_empty
      · split
        · exact pyStrip_idem _
        · exact pyStrip_empty

/-- The antiword adapter only returns stripped strings. -/
lemma pyStrip_run_antiword (T : Tools) (c : Bytes) (sfx : String) :
    pyStrip (run_antiword_conversion T c sfx) = run_antiword_conversion T c sfx := by
  unfold run_antiword_conversion
  split
  · exact pyStrip_empty
  · split
    · exact pyStrip_idem _
    · exact pyStrip_empty

/-- The OCR adapter only returns stripped strings. -/
lemma pyStrip_run_ocr (T : Tools) (c : Bytes) :
    pyStrip (run_ocr T c) = run_ocr T c := by
  unfold run_ocr
  split
  · exact pyStrip_empty
  · exact pyStrip_idem _

/-! ## The waterfall over concrete tools -/

/-- Step 2 over concrete tools never faults. -/
lemma step2_enginesOf (T : Tools) (c : Bytes) (sfx : String) (s : WState) :
    step2 (enginesOf T) c sfx s =
      .ok (if s.markdown = "" then
             ⟨run_pandoc_conversion T c sfx,
              if run_pandoc_conversion T c sfx = "" then s.method else "pandoc",
              s.invoked ++ ["pandoc"]⟩
           else s) := by
  by_cases h : s.markdown = "" <;> simp [step2, enginesOf, h]

/-- Step 3 over concrete tools never faults. -/
lemma step3_enginesOf (T : Tools) (c : Bytes) (sfx : String) (lw : Bool) (s : WState) :
    step3 (enginesOf T) c sfx lw s =
      .ok (if s.markdown = "" ∧ lw then
             ⟨run_antiword_conversion T c sfx,
              if run_antiword_conversion T c sfx = "" then s.method else "antiword",
              s.invoked ++ ["antiword"]⟩
           else s) := by
  by_cases h : s.markdown = "" ∧ lw = true <;> simp [step3, enginesOf, h]

/-- Step 4 over concrete tools never faults. -/
lemma step4_enginesOf (T : Tools) (c : Bytes) (img : Bool) (s : WState) :
    step4 (enginesOf T) c img s =
      .ok (if img ∧ (s.markdown = "" ∨ s.markdown.length < 10) then
             (if run_ocr T c = "" then { s with invoked := s.invoked ++ ["ocr"] }
              else ⟨run_ocr T c, "ocr", s.invoked ++ ["ocr"]⟩)
           else s) := by
  by_cases h : img = true ∧ (s.markdown = "" ∨ s.markdown.length < 10)
  · by_cases ho : run_ocr T c = "" <;> simp [step4, enginesOf, h, ho]
  · simp [step4, enginesOf, h]

/-- Step 1 establishes the invariant. -/
lemma step1_good (E : Env) (c : Bytes) (sfx : String) (lw : Bool) :
    GoodState (step1 E c sfx lw) := by
  by_cases hlw : lw = true
  · simp [GoodState, step1, hlw]
  · rcases hE : E.mdConvert c sfx with t | e
    · by_cases ht : pyStrip t = ""
      · simp [GoodState, step1, hlw, hE, ht]
      · simp [GoodState, step1, hlw, hE, ht, engineTags, pyStrip_idem]
    · simp [GoodState, step1, hlw, hE]

/-- Step 2 over concrete tools preserves the invariant. -/
lemma step2_good (T : Tools) (c : Bytes) (sfx : String) (s s' : WState)
    (hg : GoodState s) (h : step2 (enginesOf T) c sfx s = .ok s') : GoodState s' := by
  rw [step2_enginesOf] at h
  injection h with h'
  subst h'
  by_cases hm : s.markdown = ""
  · by_cases hp : run_pandoc_conversion T c sfx = ""
    · simp [GoodState, hm, hp]
    · simp [GoodState, hm, hp, pyStrip_run_pandoc, engineTags]
  · simp only [if_neg hm]
    exact hg

/-- Step 3 over concrete tools preserves the invariant. -/
lemma step3_good (T : Tools) (c : Bytes) (sfx : String) (lw : Bool) (s s' : WState)
    (hg : GoodState s) (h : step3 (enginesOf T) c sfx lw s = .ok s') : GoodState s' := by
  rw [step3_enginesOf] at h
  injection h with h'
  subst h'
  by_cases hc : s.markdown = "" ∧ lw = true
  · by_cases ha : run_antiword_conversion T c sfx = ""
    · simp [GoodState, hc, ha]
    · simp [GoodState, hc, ha, pyStrip_run_antiword, engineTags]
  · simp only [if_neg hc]
    exact hg

/-- Step 4 over concrete tools preserves the invariant. -/
lemma step4_good (T : Tools) (c : Bytes) (img : Bool) (s s' : WState)
    (hg : GoodState s) (h : step4 (enginesOf T) c img s = .ok s') : GoodState s' := by
  rw [step4_enginesOf] at h
  injection h with h'
  subst h'
  by_cases hc : img = true ∧ (s.markdown = "" ∨ s.markdown.length < 10)
  · by_cases ho : run_ocr T c = ""
    · simp only [if_pos hc, if_pos ho]
      intro hne
      exact hg hne
    · simp [GoodState, hc, ho, pyStrip_run_ocr, engineTags]
  · simp only [if_neg hc]
    exact hg

/-- Over concrete tools the waterfall never faults. -/
lemma runWaterfall_enginesOf_ok (T : Tools) (c : Bytes) (sfx : String) (img lw : Bool) :
    ∃ s, runWaterfall (enginesOf T) c sfx img lw = .ok s := by
  unfold runWaterfall runSteps123
  simp only [step2_enginesOf, step3_enginesOf, step4_enginesOf]
  exact ⟨_, rfl⟩

/-- A completed waterfall over concrete tools satisfies the invariant. -/
lemma runWaterfall_enginesOf_good (T : Tools) (c : Bytes) (sfx : String) (img lw : Bool)
    (s : WState) (h : runWaterfall (enginesOf T) c sfx img lw = .ok s) : GoodState s := by
  unfold runWaterfall runSteps123 at h
  rcases h2 : step2 (enginesOf T) c sfx (step1 (enginesOf T) c sfx lw) with f | s2 <;>
    rw [h2] at h <;> dsimp only at h
  · cases h
  · rcases h3 : step3 (enginesOf T) c sfx lw s2 with f | s3 <;> rw [h3] at h <;>
      dsimp only at h
    · cases h
    · exact step4_good T c img s3 s
        (step3_good T c sfx lw s2 s3
          (step2_good T c sfx (step1 (enginesOf T) c sfx lw) s2
            (step1_good (enginesOf T) c sfx lw) h2) h3) h

/-! ## Claims -/

/-- C1: for every request with empty content, `perform_conversion` fails
with `EmptyInput`, and for every request whose content length exceeds the
configured maximum, it fails with `TooLarge`; in both cases no engine is
invoked (and no temp file is even created). -/
theorem claim_C1 (E : Env) (maxFileSize : Nat) (c : Bytes) (f m : String) :
    (c.length = 0 →
      (perform_conversion E maxFileSize c f m).result = .error .emptyInput ∧
      (perform_conversion E maxFileSize c f m).invoked = []) ∧
    (c.length > maxFileSize →
      (perform_conversion E maxFileSize c f m).result = .error .tooLarge ∧
      (perform_conversion E maxFileSize c f m).invoked = []) := by
  constructor
  · intro h
    unfold perform_conversion
    rw [if_pos h]
    exact ⟨rfl, rfl⟩
  · intro h
    have h0 : c.length ≠ 0 := by
      intro hc
      rw [hc] at h
      exact absurd h (Nat.not_lt_zero _).elim
    unfold perform_conversion
    rw [if_neg h0, if_pos h]
    exact ⟨rfl, rfl⟩

theorem claim_C1_witness :
    (perform_conversion (mkEnv (.ok "x") (.ok "") (.ok "") (.ok "")) 5 [] "a.txt" "text/plain").result
        = .error .emptyInput ∧
    (perform_conversion (mkEnv (.ok "x") (.ok "") (.ok "") (.ok "")) 1 [7, 7] "a.txt" "text/plain").result
        = .error .tooLarge :=
  ⟨((claim_C1 (mkEnv (.ok "x") (.ok "") (.ok "") (.ok "")) 5 [] "a.txt" "text/plain").1 rfl).1,
   ((claim_C1 (mkEnv (.ok "x") (.ok "") (.ok "") (.ok "")) 1 [7, 7] "a.txt" "text/plain").2
      (by decide)).1⟩

/-- The waterfall on a legacy-Word, non-image input: MarkItDown is
skipped, pandoc runs first, antiword runs only if pandoc returned `""`,
and OCR never runs. -/
lemma runWaterfall_legacy (E : Env) (c : Bytes) (sfx : String) :
    runWaterfall E c sfx false true =
      (match E.pandoc c sfx with
       | .fault e => .error (⟨"", "unknown", ["pandoc"]⟩, e)
       | .ok t =>
         if t = "" then
           match E.antiword c sfx with
           | .fault e => .error (⟨"", "unknown", ["pandoc", "antiword"]⟩, e)
           | .ok u => .ok ⟨u, if u = "" then "unknown" else "antiword",
                           ["pandoc", "antiword"]⟩
         else .ok ⟨t, "pandoc", ["pandoc"]⟩) := by
  rcases hp : E.pandoc c sfx with t | e
  · by_cases ht : t = ""
    · rcases ha : E.antiword c sfx with u | e2
      · by_cases hu : u = "" <;>
          simp [runWaterfall, runSteps123, step1, step2, step3, step4, hp, ha, ht, hu]
      · simp [runWaterfall, runSteps123, step1, step2, step3, step4, hp, ha, ht]
    · simp [runWaterfall, runSteps123, step1, step2, step3, step4, hp, ht]
  · simp [runWaterfall, runSteps123, step1, step2, step3, step4, hp]

/-- C2 as stated is false: on an input classified as legacy Word (here
`x.doc` with declared type `image/png`, which is *also* image-classified)
pandoc is attempted first and succeeds with the non-empty text `"hi"`,
yet the reported method is `ocr`, not `pandoc`, because the length-10
image override lets OCR overwrite the short pandoc result. -/
theorem claim_C2_counterexample :
    isLegacyWordInput (mkEnv (.ok "") (.ok "hi") (.ok "") (.ok "LONG OCR TEXT")).guessExt
        "x.doc" "image/png" = true ∧
    (mkEnv (.ok "") (.ok "hi") (.ok "") (.ok "LONG OCR TEXT")).pandoc [1]
        (suffixFor (resolvedExt (mkEnv (.ok "") (.ok "hi") (.ok "") (.ok "LONG OCR TEXT")).guessExt
          "x.doc" "image/png")) = .ok "hi" ∧
    "markitdown" ∉ (perform_conversion (mkEnv (.ok "") (.ok "hi") (.ok "") (.ok "LONG OCR TEXT"))
        9 [1] "x.doc" "image/png").invoked ∧
    (perform_conversion (mkEnv (.ok "") (.ok "hi") (.ok "") (.ok "LONG OCR TEXT"))
        9 [1] "x.doc" "image/png").result =
      .ok { filename := "x.doc", content_type := "image/png", size_bytes := 1,
            markdown := "LONG OCR TEXT", method := "ocr" } := by
  refine ⟨by decide, rfl, by decide, by decide⟩

/-- C2 (amended): for every input classified as legacy Word and not
classified as an image, MarkItDown is never invoked and pandoc is
attempted first; if pandoc yields non-empty text, the result is that
text with method `pandoc` and antiword is not attempted; if pandoc
yields `""` and antiword yields non-empty text, the result is that text
with method `antiword`; antiword is attempted only if pandoc returned
`""`.  (The unamended claim fails only when the input is simultaneously
image-classified and the accepted text is shorter than 10 characters,
in which case OCR may override; see the counterexample.) -/
theorem claim_C2_amended (E : Env) (maxFileSize : Nat) (c : Bytes) (f m : String)
    (h0 : c.length ≠ 0) (h1 : ¬ c.length > maxFileSize)
    (hlw : isLegacyWordInput E.guessExt f m = true)
    (him : isImageInput E.guessExt f m = false) :
    ("markitdown" ∉ (perform_conversion E maxFileSize c f m).invoked) ∧
    ((perform_conversion E maxFileSize c f m).invoked.head? = some "pandoc") ∧
    (∀ t, E.pandoc c (suffixFor (resolvedExt E.guessExt f m)) = .ok t → t ≠ "" →
      (perform_conversion E maxFileSize c f m).result =
        .ok { filename := f, content_type := m, size_bytes := c.length,
              markdown := t, method := "pandoc" } ∧
      "antiword" ∉ (perform_conversion E maxFileSize c f m).invoked) ∧
    (E.pandoc c (suffixFor (resolvedExt E.guessExt f m)) = .ok "" →
      ∀ u, E.antiword c (suffixFor (resolvedExt E.guessExt f m)) = .ok u → u ≠ "" →
      (perform_conversion E maxFileSize c f m).result =
        .ok { filename := f, content_type := m, size_bytes := c.length,
              markdown := u, method := "antiword" }) ∧
    ("antiword" ∈ (perform_conversion E maxFileSize c f m).invoked →
      E.pandoc c (suffixFor (resolvedExt E.guessExt f m)) = .ok "") := by
  rw [perform_conversion_eq E maxFileSize c f m h0 h1, hlw, him, runWaterfall_legacy]
  rcases hp : E.pandoc c (suffixFor (resolvedExt E.guessExt f m)) with t | e
  · by_cases ht : t = ""
    · subst ht
      rcases ha : E.antiword c (suffixFor (resolvedExt E.guessExt f m)) with u | e2
      · by_cases hu : u = ""
        · subst hu
          refine ⟨by simp, by simp, ?_, ?_, fun _ => rfl⟩
          · intro t' hpt' ht'
            injection hpt' with h'
            exact absurd h'.symm ht'
          · intro _ u' hau' hu'
            injection hau' with h'
            exact absurd h'.symm hu'
        · refine ⟨by simp [hu], by simp [hu], ?_, ?_, fun _ => rfl⟩
          · intro t' hpt' ht'
            injection hpt' with h'
            exact absurd h'.symm ht'
          · intro _ u' hau' hu'
            injection hau' with h'
            subst h'
            simp [hu]
      · refine ⟨by simp, by simp, ?_, ?_, fun _ => rfl⟩
        · intro t' hpt' ht'
          injection hpt' with h'
          exact absurd h'.symm ht'
        · intro _ u' hau' _
          cases hau'
    · refine ⟨by simp [ht], by simp [ht], ?_, ?_, ?_⟩
      · intro t' hpt' _
        injection hpt' with h'
        subst h'
        simp [ht]
      · intro hp' _ _ _
        injection hp' with h'
        exact absurd h' ht
      · intro hmem
        simp [ht] at hmem
  · refine ⟨by simp, by simp, ?_, ?_, ?_⟩
    · intro t' hpt' _
      cases hpt'
    · intro hp' _ _ _
      cases hp'
    · intro hmem
      simp at hmem

theorem claim_C2_amended_witness :
    ((perform_conversion (mkEnv (.ok "") (.ok "") (.ok " antiword text ") (.ok ""))
        9 [1] "x.doc" "application/msword").result =
      .ok { filename := "x.doc", content_type := "application/msword", size_bytes := 1,
            markdown := " antiword text ", method := "antiword" }) ∧
    ((perform_conversion (mkEnv (.ok "") (.ok "pandoc md") (.ok "") (.ok ""))
        9 [1] "x.doc" "application/msword").result =
      .ok { filename := "x.doc", content_type := "application/msword", size_bytes := 1,
            markdown := "pandoc md", method := "pandoc" } ∧
     "antiword" ∉ (perform_conversion (mkEnv (.ok "") (.ok "pandoc md") (.ok "") (.ok ""))
        9 [1] "x.doc" "application/msword").invoked) ∧
    "markitdown" ∉ (perform_conversion (mkEnv (.ok "") (.ok "") (.ok " antiword text ") (.ok ""))
        9 [1] "x.doc" "application/msword").invoked :=
  ⟨((claim_C2_amended (mkEnv (.ok "") (.ok "") (.ok " antiword text ") (.ok ""))
      9 [1] "x.doc" "application/msword" (by decide) (by decide) (by decide) (by decide)).2.2.2.1
      rfl " antiword text " rfl (by decide)),
   ((claim_C2_amended (mkEnv (.ok "") (.ok "pandoc md") (.ok "") (.ok ""))
      9 [1] "x.doc" "application/msword" (by decide) (by decide) (by decide) (by decide)).2.2.1
      "pandoc md" rfl (by decide)),
   ((claim_C2_amended (mkEnv (.ok "") (.ok "") (.ok " antiword text ") (.ok ""))
      9 [1] "x.doc" "application/msword" (by decide) (by decide) (by decide) (by decide)).1)⟩

/-- C3: for an image-classified input, (1) if the non-OCR part of the
waterfall ends with text shorter than 10 characters and OCR yields
non-empty text, the final markdown is exactly the OCR text with method
`ocr`, overwriting the shorter prior result; (2) if the non-OCR part
ends with text of length at least 10, OCR is not attempted and the prior
text and method are returned unchanged. -/
theorem claim_C3 (E : Env) (maxFileSize : Nat) (c : Bytes) (f m : String)
    (h0 : c.length ≠ 0) (h1 : ¬ c.length > maxFileSize)
    (him : isImageInput E.guessExt f m = true) :
    (∀ s : WState,
      runSteps123 E c (suffixFor (resolvedExt E.guessExt f m))
          (isLegacyWordInput E.guessExt f m) = .ok s →
      s.markdown.length < 10 →
      ∀ t, E.ocr c = .ok t → t ≠ "" →
      (perform_conversion E maxFileSize c f m).result =
        .ok { filename := f, content_type := m, size_bytes := c.length,
              markdown := t, method := "ocr" }) ∧
    (∀ s : WState,
      runSteps123 E c (suffixFor (resolvedExt E.guessExt f m))
          (isLegacyWordInput E.guessExt f m) = .ok s →
      10 ≤ s.markdown.length →
      (perform_conversion E maxFileSize c f m).result =
        .ok { filename := f, content_type := m, size_bytes := c.length,
              markdown := s.markdown, method := s.method } ∧
      "ocr" ∉ (perform_conversion E maxFileSize c f m).invoked) := by
  constructor
  · intro s hs hlen t hocr ht
    rw [perform_conversion_eq E maxFileSize c f m h0 h1]
    unfold runWaterfall
    rw [hs, him]
    simp [step4, hocr, ht, hlen]
  · intro s hs hlen
    have hmne : s.markdown ≠ "" := by
      intro he
      rw [he] at hlen
      exact absurd hlen (by decide)
    have hnl : ¬ s.markdown.length < 10 := Nat.not_lt.mpr hlen
    constructor
    · rw [perform_conversion_eq E maxFileSize c f m h0 h1]
      unfold runWaterfall
      rw [hs, him]
      simp [step4, hmne, hnl]
    · have hinv : (perform_conversion E maxFileSize c f m).invoked = s.invoked := by
        rw [perform_conversion_eq E maxFileSize c f m h0 h1]
        unfold runWaterfall
        rw [hs, him]
        simp [step4, hmne, hnl]
      rw [hinv]
      exact runSteps123_no_ocr E c _ _ s hs

theorem claim_C3_witness :
    ((perform_conversion (mkEnv (.ok "hi") (.ok "") (.ok "") (.ok "LONG OCR TEXT"))
        9 [1] "scan.png" "image/png").result =
      .ok { filename := "scan.png", content_type := "image/png", size_bytes := 1,
            markdown := "LONG OCR TEXT", method := "ocr" }) ∧
    ((perform_conversion (mkEnv (.ok "0123456789AB") (.ok "") (.ok "") (.ok "IGNORED"))
        9 [1] "scan.png" "image/png").result =
      .ok { filename := "scan.png", content_type := "image/png", size_bytes := 1,
            markdown := "0123456789AB", method := "markitdown" } ∧
      "ocr" ∉ (perform_conversion (mkEnv (.ok "0123456789AB") (.ok "") (.ok "") (.ok "IGNORED"))
        9 [1] "scan.png" "image/png").invoked) :=
  ⟨(claim_C3 (mkEnv (.ok "hi") (.ok "") (.ok "") (.ok "LONG OCR TEXT"))
      9 [1] "scan.png" "image/png" (by decide) (by decide) (by decide)).1
      ⟨"hi", "markitdown", ["markitdown"]⟩ (by decide) (by decide)
      "LONG OCR TEXT" rfl (by decide),
   (claim_C3 (mkEnv (.ok "0123456789AB") (.ok "") (.ok "") (.ok "IGNORED"))
      9 [1] "scan.png" "image/png" (by decide) (by decide) (by decide)).2
      ⟨"0123456789AB", "markitdown", ["markitdown"]⟩ (by decide) (by decide)⟩

/-- C10: for an image-classified input where the non-OCR waterfall ends
with short but non-empty text (1–9 characters) and OCR returns empty
text (as it does when it fails internally), the conversion still
succeeds with the prior short text and the prior engine's method tag;
the length-10 threshold triggers the OCR attempt but never discards the
existing result. -/
theorem claim_C10 (E : Env) (maxFileSize : Nat) (c : Bytes) (f m : String)
    (h0 : c.length ≠ 0) (h1 : ¬ c.length > maxFileSize)
    (him : isImageInput E.guessExt f m = true)
    (s : WState)
    (hs : runSteps123 E c (suffixFor (resolvedExt E.guessExt f m))
        (isLegacyWordInput E.guessExt f m) = .ok s)
    (hlo : 1 ≤ s.markdown.length) (hhi : s.markdown.length < 10)
    (hocr : E.ocr c = .ok "") :
    (perform_conversion E maxFileSize c f m).result =
      .ok { filename := f, content_type := m, size_bytes := c.length,
            markdown := s.markdown, method := s.method } ∧
    "ocr" ∈ (perform_conversion E maxFileSize c f m).invoked := by
  have hne : s.markdown ≠ "" := by
    intro he
    rw [he] at hlo
    exact absurd hlo (by decide)
  rw [perform_conversion_eq E maxFileSize c f m h0 h1]
  unfold runWaterfall
  rw [hs, him]
  simp [step4, hocr, hhi, hne]

theorem claim_C10_witness :
    (perform_conversion (mkEnv (.ok " hi ") (.ok "") (.ok "") (.ok ""))
        9 [1] "scan.png" "image/png").result =
      .ok { filename := "scan.png", content_type := "image/png", size_bytes := 1,
            markdown := "hi", method := "markitdown" } ∧
    "ocr" ∈ (perform_conversion (mkEnv (.ok " hi ") (.ok "") (.ok "") (.ok ""))
        9 [1] "scan.png" "image/png").invoked :=
  claim_C10 (mkEnv (.ok " hi ") (.ok "") (.ok "") (.ok ""))
    9 [1] "scan.png" "image/png" (by decide) (by decide) (by decide)
    ⟨"hi", "markitdown", ["markitdown"]⟩ (by decide) (by decide) (by decide) rfl

/-- C4 as stated is false: on this image-classified input a fault
escapes the pandoc attempt, and (as claimed) it is not surfaced; but the
request does not fall through to the OCR step — OCR is never invoked
even though it would return non-empty text, and the request fails with
`AllEnginesFailed`. -/
theorem claim_C4_counterexample :
    isImageInput (mkEnv (.ok "") (.fault "boom") (.ok "") (.ok "OCR TEXT")).guessExt
        "scan.png" "image/png" = true ∧
    (mkEnv (.ok "") (.fault "boom") (.ok "") (.ok "OCR TEXT")).ocr [1] = .ok "OCR TEXT" ∧
    (perform_conversion (mkEnv (.ok "") (.fault "boom") (.ok "") (.ok "OCR TEXT"))
        9 [1] "scan.png" "image/png").result = .error .allEnginesFailed ∧
    "ocr" ∉ (perform_conversion (mkEnv (.ok "") (.fault "boom") (.ok "") (.ok "OCR TEXT"))
        9 [1] "scan.png" "image/png").invoked :=
  ⟨by decide, rfl, by decide, by decide⟩

/-- C4 (amended): when an unexpected fault escapes an engine attempt
inside the waterfall, it is surfaced as `ConversionFaulted` if and only
if the input is not image-classified; for an image-classified input the
fault is swallowed, but instead of falling through to OCR the remaining
waterfall steps are skipped: no further engine is invoked and the
request proceeds directly to the final check, succeeding with any
previously accepted text or failing with `AllEnginesFailed`. -/
theorem claim_C4_amended (E : Env) (maxFileSize : Nat) (c : Bytes) (f m : String)
    (h0 : c.length ≠ 0) (h1 : ¬ c.length > maxFileSize)
    (s : WState) (e : String)
    (hf : runWaterfall E c (suffixFor (resolvedExt E.guessExt f m))
        (isImageInput E.guessExt f m) (isLegacyWordInput E.guessExt f m) = .error (s, e)) :
    (isImageInput E.guessExt f m = false →
      (perform_conversion E maxFileSize c f m).result = .error (.conversionFaulted e)) ∧
    (isImageInput E.guessExt f m = true →
      (perform_conversion E maxFileSize c f m).invoked = s.invoked ∧
      (perform_conversion E maxFileSize c f m).result =
        (if s.markdown = "" then .error .allEnginesFailed
         else .ok { filename := f, content_type := m, size_bytes := c.length,
                    markdown := s.markdown, method := s.method })) := by
  constructor
  · intro him
    rw [perform_conversion_eq E maxFileSize c f m h0 h1, hf, him]
    simp
  · intro him
    rw [perform_conversion_eq E maxFileSize c f m h0 h1, hf, him]
    constructor
    · by_cases hm : s.markdown = "" <;> simp [hm]
    · by_cases hm : s.markdown = "" <;> simp [hm]

theorem claim_C4_amended_witness :
    ((perform_conversion (mkEnv (.ok "") (.fault "boom") (.ok "") (.ok "OCR TEXT"))
        9 [1] "a.txt" "text/plain").result = .error (.conversionFaulted "boom")) ∧
    ((perform_conversion (mkEnv (.ok "") (.fault "boom") (.ok "") (.ok "OCR TEXT"))
        9 [1] "scan.png" "image/png").invoked = ["markitdown", "pandoc"] ∧
     (perform_conversion (mkEnv (.ok "") (.fault "boom") (.ok "") (.ok "OCR TEXT"))
        9 [1] "scan.png" "image/png").result = .error .allEnginesFailed) := by
  refine ⟨?_, ?_⟩
  · exact (claim_C4_amended (mkEnv (.ok "") (.fault "boom") (.ok "") (.ok "OCR TEXT"))
      9 [1] "a.txt" "text/plain" (by decide) (by decide)
      ⟨"", "unknown", ["markitdown", "pandoc"]⟩ "boom" (by decide)).1 (by decide)
  · have h := (claim_C4_amended (mkEnv (.ok "") (.fault "boom") (.ok "") (.ok "OCR TEXT"))
      9 [1] "scan.png" "image/png" (by decide) (by decide)
      ⟨"", "unknown", ["markitdown", "pandoc"]⟩ "boom" (by decide)).2 (by decide)
    exact ⟨h.1, h.2.trans (by decide)⟩

/-- C6: on a non-legacy-Word, non-image input where MarkItDown (the
primary engine) yields non-empty stripped text, the result is that exact
stripped text with method `markitdown`, and no other engine is invoked. -/
theorem claim_C6 (E : Env) (maxFileSize : Nat) (c : Bytes) (f m : String)
    (h0 : c.length ≠ 0) (h1 : ¬ c.length > maxFileSize)
    (hlw : isLegacyWordInput E.guessExt f m = false)
    (him : isImageInput E.guessExt f m = false)
    (t : String)
    (hmd : E.mdConvert c (suffixFor (resolvedExt E.guessExt f m)) = .ok t)
    (ht : pyStrip t ≠ "") :
    (perform_conversion E maxFileSize c f m).result =
      .ok { filename := f, content_type := m, size_bytes := c.length,
            markdown := pyStrip t, method := "markitdown" } ∧
    (perform_conversion E maxFileSize c f m).invoked = ["markitdown"] := by
  rw [perform_conversion_eq E maxFileSize c f m h0 h1, hlw, him]
  simp [runWaterfall, runSteps123, step1, step2, step3, step4, hmd, ht]

theorem claim_C6_witness :
    (perform_conversion (mkEnv (.ok " hi ") (.ok "") (.ok "") (.ok "")) 9 [1] "a.txt" "text/plain").result
        = .ok { filename := "a.txt", content_type := "text/plain", size_bytes := 1,
                markdown := "hi", method := "markitdown" } :=
  (claim_C6 (mkEnv (.ok " hi ") (.ok "") (.ok "") (.ok "")) 9 [1] "a.txt" "text/plain"
    (by decide) (by decide) (by decide) (by decide) " hi " rfl (by decide)).1

/-- C7: `perform_conversion` is deterministic: two calls with identical
`(content, filename, mimetype)` and identical behaviour of the external
tools produce the same method tag and the same markdown. -/
theorem claim_C7 (E₁ E₂ : Env)
    (hg : E₁.guessExt = E₂.guessExt) (hm : E₁.mdConvert = E₂.mdConvert)
    (hp : E₁.pandoc = E₂.pandoc) (ha : E₁.antiword = E₂.antiword)
    (ho : E₁.ocr = E₂.ocr)
    (maxFileSize : Nat) (c : Bytes) (f m : String) :
    (perform_conversion E₁ maxFileSize c f m).result.map ConvResult.method
      = (perform_conversion E₂ maxFileSize c f m).result.map ConvResult.method ∧
    (perform_conversion E₁ maxFileSize c f m).result.map ConvResult.markdown
      = (perform_conversion E₂ maxFileSize c f m).result.map ConvResult.markdown := by
  obtain ⟨g₁, md₁, p₁, a₁, o₁⟩ := E₁
  obtain ⟨g₂, md₂, p₂, a₂, o₂⟩ := E₂
  obtain rfl : g₁ = g₂ := hg
  obtain rfl : md₁ = md₂ := hm
  obtain rfl : p₁ = p₂ := hp
  obtain rfl : a₁ = a₂ := ha
  obtain rfl : o₁ = o₂ := ho
  exact ⟨rfl, rfl⟩

theorem claim_C7_witness :
    (perform_conversion (mkEnv (.ok "t") (.ok "") (.ok "") (.ok "")) 9 [1] "a.txt" "text/plain").result.map ConvResult.method
      = (perform_conversion (mkEnv (.ok "t") (.ok "") (.ok "") (.ok "")) 9 [1] "a.txt" "text/plain").result.map ConvResult.method :=
  (claim_C7 (mkEnv (.ok "t") (.ok "") (.ok "") (.ok ""))
    (mkEnv (.ok "t") (.ok "") (.ok "") (.ok "")) rfl rfl rfl rfl rfl
    9 [1] "a.txt" "text/plain").1

/-- C8: for every request that passes the size preconditions, exactly one
temp file is created, with suffix derived from the resolved extension,
and it is removed exactly once on every exit path of the orchestrator. -/
theorem claim_C8 (E : Env) (maxFileSize : Nat) (c : Bytes) (f m : String)
    (h0 : c.length ≠ 0) (h1 : ¬ c.length > maxFileSize) :
    (perform_conversion E maxFileSize c f m).tmpCreated
        = [suffixFor (resolvedExt E.guessExt f m)] ∧
    (perform_conversion E maxFileSize c f m).tmpRemoved = 1 := by
  rw [perform_conversion_eq E maxFileSize c f m h0 h1]
  constructor <;>
  · split
    · split <;> rfl
    · split
      · split <;> rfl
      · rfl

theorem claim_C8_witness :
    (perform_conversion (mkEnv (.ok "x") (.ok "") (.ok "") (.ok "")) 9 [1] "b.pdf" "application/pdf").tmpCreated
        = [".pdf"] ∧
    (perform_conversion (mkEnv (.ok "x") (.ok "") (.ok "") (.ok "")) 9 [1] "b.pdf" "application/pdf").tmpRemoved
        = 1 := by
  have h := claim_C8 (mkEnv (.ok "x") (.ok "") (.ok "") (.ok "")) 9 [1] "b.pdf" "application/pdf"
    (by decide) (by decide)
  exact ⟨h.1.trans (by decide), h.2⟩

/-- Projection of `enginesOf`. -/
lemma enginesOf_guessExt (T : Tools) : (enginesOf T).guessExt = T.guessExt := rfl

/-- Projection of `enginesOf`. -/
lemma enginesOf_mdConvert (T : Tools) : (enginesOf T).mdConvert = T.mdRaw := rfl

/-- C5: for a request that passes the size preconditions, when no
waterfall step produces accepted text — an engine output being accepted
iff it is non-empty after stripping, and every adapter output is already
stripped — the conversion fails with `AllEnginesFailed`, and only after
every applicable engine of the waterfall has been attempted. -/
theorem claim_C5 (T : Tools) (maxFileSize : Nat) (c : Bytes) (f m : String)
    (h0 : c.length ≠ 0) (h1 : ¬ c.length > maxFileSize)
    (hmd : ∀ t, T.mdRaw c (suffixFor (resolvedExt T.guessExt f m)) = .ok t →
      pyStrip t = "")
    (hp : run_pandoc_conversion T c (suffixFor (resolvedExt T.guessExt f m)) = "")
    (ha : run_antiword_conversion T c (suffixFor (resolvedExt T.guessExt f m)) = "")
    (ho : run_ocr T c = "") :
    (perform_conversion (enginesOf T) maxFileSize c f m).result = .error .allEnginesFailed ∧
    (perform_conversion (enginesOf T) maxFileSize c f m).invoked =
      (if isLegacyWordInput T.guessExt f m then [] else ["markitdown"])
        ++ ["pandoc"]
        ++ (if isLegacyWordInput T.guessExt f m then ["antiword"] else [])
        ++ (if isImageInput T.guessExt f m then ["ocr"] else []) := by
  cases hlw : isLegacyWordInput T.guessExt f m <;>
    cases him : isImageInput T.guessExt f m <;>
    rw [perform_conversion_eq (enginesOf T) maxFileSize c f m h0 h1] <;>
    simp only [enginesOf_guessExt] <;>
    rw [hlw, him]
  · rcases hE : T.mdRaw c (suffixFor (resolvedExt T.guessExt f m)) with t | e
    · have hts := hmd t hE
      simp [runWaterfall, runSteps123, step1, enginesOf_mdConvert, hE, hts,
        step2_enginesOf, step3_enginesOf, step4_enginesOf, hp, ha, ho]
    · simp [runWaterfall, runSteps123, step1, enginesOf_mdConvert, hE,
        step2_enginesOf, step3_enginesOf, step4_enginesOf, hp, ha, ho]
  · rcases hE : T.mdRaw c (suffixFor (resolvedExt T.guessExt f m)) with t | e
    · have hts := hmd t hE
      simp [runWaterfall, runSteps123, step1, enginesOf_mdConvert, hE, hts,
        step2_enginesOf, step3_enginesOf, step4_enginesOf, hp, ha, ho]
    · simp [runWaterfall, runSteps123, step1, enginesOf_mdConvert, hE,
        step2_enginesOf, step3_enginesOf, step4_enginesOf, hp, ha, ho]
  · simp [runWaterfall, runSteps123, step1,
      step2_enginesOf, step3_enginesOf, step4_enginesOf, hp, ha, ho]
  · simp [runWaterfall, runSteps123, step1,
      step2_enginesOf, step3_enginesOf, step4_enginesOf, hp, ha, ho]

theorem claim_C5_witness :
    (perform_conversion (enginesOf (mkTools (.ok "  ") (.ok ⟨1, "x"⟩) (.ok ⟨1, "x"⟩)
        (.ok ⟨1, "x"⟩) (.ok "  "))) 9 [1] "a.txt" "text/plain").result
      = .error .allEnginesFailed ∧
    (perform_conversion (enginesOf (mkTools (.ok "  ") (.ok ⟨1, "x"⟩) (.ok ⟨1, "x"⟩)
        (.ok ⟨1, "x"⟩) (.ok "  "))) 9 [1] "a.txt" "text/plain").invoked
      = ["markitdown", "pandoc"] := by
  have h := claim_C5 (mkTools (.ok "  ") (.ok ⟨1, "x"⟩) (.ok ⟨1, "x"⟩) (.ok ⟨1, "x"⟩)
      (.ok "  ")) 9 [1] "a.txt" "text/plain" (by decide) (by decide)
    (by intro t ht; injection ht with h'; subst h'; rfl) (by decide) (by decide) (by decide)
  exact ⟨h.1, h.2.trans (by decide)⟩

/-- C9: every successful conversion carries a method tag that is one of
the four engine tags (never the initial placeholder `unknown`) and
markdown text that is non-empty even after stripping. -/
theorem claim_C9 (T : Tools) (maxFileSize : Nat) (c : Bytes) (f m : String) (r : ConvResult)
    (h : (perform_conversion (enginesOf T) maxFileSize c f m).result = .ok r) :
    r.method ∈ engineTags ∧ r.method ≠ "unknown" ∧ r.markdown ≠ "" ∧
      pyStrip r.markdown ≠ "" := by
  have h0 : c.length ≠ 0 := by
    intro hc
    unfold perform_conversion at h
    rw [if_pos hc] at h
    cases h
  have h1 : ¬ c.length > maxFileSize := by
    intro hgt
    unfold perform_conversion at h
    rw [if_neg h0, if_pos hgt] at h
    cases h
  rw [perform_conversion_eq (enginesOf T) maxFileSize c f m h0 h1] at h
  obtain ⟨s, hs⟩ := runWaterfall_enginesOf_ok T c
    (suffixFor (resolvedExt (enginesOf T).guessExt f m))
    (isImageInput (enginesOf T).guessExt f m) (isLegacyWordInput (enginesOf T).guessExt f m)
  rw [hs] at h
  dsimp only at h
  by_cases hm : s.markdown = ""
  · rw [if_pos hm] at h
    cases h
  · rw [if_neg hm] at h
    injection h with h'
    subst h'
    obtain ⟨hstrip, htag⟩ := runWaterfall_enginesOf_good T c _ _ _ s hs hm
    refine ⟨htag, ?_, hm, ?_⟩
    · intro heq
      dsimp only at heq
      rw [heq] at htag
      exact absurd htag (by decide)
    · show pyStrip s.markdown ≠ ""
      rw [hstrip]
      exact hm

theorem claim_C9_witness :
    "markitdown" ∈ engineTags ∧ "markitdown" ≠ ("unknown" : String) ∧
      "hello" ≠ ("" : String) ∧ pyStrip "hello" ≠ "" :=
  claim_C9 (mkTools (.ok " hello ") (.ok ⟨1, "x"⟩) (.ok ⟨1, "x"⟩) (.ok ⟨1, "x"⟩) (.ok ""))
    9 [1] "a.txt" "text/plain"
    { filename := "a.txt", content_type := "text/plain", size_bytes := 1,
      markdown := "hello", method := "markitdown" } (by decide)
